import Mathlib

/-!
Shallow embedding of `larpa.py` (Larpa Fruit Printing Routines).

The program is a small OSC-driven hardware-control daemon.  Its observable
behaviour is modelled by an explicit process state: the global `MUTEX` lock,
the operator console (list of printed lines), the sequence of device-executor
invocations, and the external shell commands that have completed together with
their exit status.  The outcome of the external world (exit codes of the
`scanimage` and `lp` child processes, and whether spawning them raises an
OS-level exception) is a parameter `DeviceEnv`.

Python functions that may raise are embedded as returning
`ProcState × Except PyExn Unit`; a Python function body that contains no
raise and calls `subprocess.run` without `check=True` always yields
`Except.ok ()` because `subprocess.run` does not raise on a non-zero child
exit status.
-/

namespace Larpa

/-- A decoded OSC message argument (string or number suffice for this repo). -/
inductive OscArg
  | str (s : String)
  | num (n : Int)
deriving DecidableEq, Repr

/-- Python exceptions observable in this program: a `TypeError` from calling a
callback with the wrong number of positional arguments, and an OS-level error
from spawning a child process. -/
inductive PyExn
  | typeError
  | osError
deriving DecidableEq, Repr

/-- A device-operation step executed by the Device Operation Executor. -/
inductive DevOp
  | scan
  | print
deriving DecidableEq, Repr

/-- Behaviour of the external world for one run: the exit status each child
process would return, and whether spawning it raises an OS-level exception. -/
structure DeviceEnv where
  scanExit : Int
  scanRaises : Bool
  printExit : Int
  printRaises : Bool
deriving DecidableEq, Repr

/-- Observable process state: the global `MUTEX` (`threading.Lock`), the
operator console, the executor invocations so far, and the completed external
commands with their exit status. -/
structure ProcState where
  mutexLocked : Bool
  console : List String
  ops : List DevOp
  procs : List (String × Int)
deriving DecidableEq, Repr

/-- Python `print(line)`: append a line to the operator console. -/
def ProcState.printLine (s : ProcState) (line : String) : ProcState :=
  { s with console := s.console ++ [line] }

/-- Record the entry into an executor function (`execute_scan`/`execute_print`). -/
def ProcState.beginOp (s : ProcState) (op : DevOp) : ProcState :=
  { s with ops := s.ops ++ [op] }

/-- Record a completed `subprocess.run` with its exit status. -/
def ProcState.ranProc (s : ProcState) (cmd : String) (code : Int) : ProcState :=
  { s with procs := s.procs ++ [(cmd, code)] }

/-- `SCANNER_DEVICE_NAME` from larpa.py. -/
def SCANNER_DEVICE_NAME : String := "pixma:04A918AA_2067EE"

/-- `OUT_FILE` from larpa.py. -/
def OUT_FILE : String := "out.jpeg"

/-- The shell command string built by `execute_scan`. -/
def scanCommand : String :=
  "scanimage --device-name=" ++ SCANNER_DEVICE_NAME ++
    " --format=jpeg --calibrate=Always > " ++ OUT_FILE

/-- The shell command string built by `execute_print`. -/
def printCommand : String := "lp " ++ OUT_FILE

/-- `execute_scan()`: prints a banner, then runs the scan shell command via
`subprocess.run(..., shell=True)`.  The child's exit status is discarded
(no `check=True`, return value unused); the call raises only if spawning the
child fails at the OS level. -/
def execute_scan (env : DeviceEnv) (s : ProcState) : ProcState × Except PyExn Unit :=
  let s1 := (s.printLine "> Scanning...").beginOp DevOp.scan
  if env.scanRaises then
    (s1, Except.error PyExn.osError)
  else
    (s1.ranProc scanCommand env.scanExit, Except.ok ())

/-- `execute_print()`: prints a banner, then runs `lp out.jpeg` via
`subprocess.run(..., shell=True)`, discarding the exit status. -/
def execute_print (env : DeviceEnv) (s : ProcState) : ProcState × Except PyExn Unit :=
  let s1 := (s.printLine "> Printing...").beginOp DevOp.print
  if env.printRaises then
    (s1, Except.error PyExn.osError)
  else
    (s1.ranProc printCommand env.printExit, Except.ok ())

/-- Python's `with MUTEX:` block: acquire the lock, run the body, and release
the lock on the way out even when the body raises (the `__exit__` of a
`threading.Lock` runs on both normal and exceptional exit). -/
def withMutex (s : ProcState) (body : ProcState → ProcState × Except PyExn Unit) :
    ProcState × Except PyExn Unit :=
  let r := body { s with mutexLocked := true }
  ({ r.1 with mutexLocked := false }, r.2)

/-- `echo_callback(_address, msg)`: prints `"> {}".format(msg)`; `format` of a
string is the string itself, of an int its decimal rendering. -/
def OscArg.format : OscArg → String
  | OscArg.str s => s
  | OscArg.num n => toString n

/-- `echo_callback` body (larpa.py lines 84-86). -/
def echo_callback (_address : String) (msg : OscArg) (s : ProcState) :
    ProcState × Except PyExn Unit :=
  (s.printLine ("> " ++ msg.format), Except.ok ())

/-- `scan_callback` body (larpa.py lines 88-94): check `MUTEX.locked()`; if
held, print the ignored notice; otherwise enter `with MUTEX:` and run
`execute_scan()`. -/
def scan_callback (env : DeviceEnv) (_address : String) (_msg : OscArg) (s : ProcState) :
    ProcState × Except PyExn Unit :=
  if s.mutexLocked then
    (s.printLine "> Scan ignored, a process lock has already been acquired...",
      Except.ok ())
  else
    withMutex s (execute_scan env)

/-- `scan_and_print_callback` body (larpa.py lines 96-102): same gate check,
then `with MUTEX:` around `execute_scan(); execute_print()` run in sequence
(the second call is reached only if the first returns normally). -/
def scan_and_print_callback (env : DeviceEnv) (_address : String) (_msg : OscArg)
    (s : ProcState) : ProcState × Except PyExn Unit :=
  if s.mutexLocked then
    (s.printLine "> Scan and print ignored, a process lock has already been acquired...",
      Except.ok ())
  else
    withMutex s (fun t =>
      match execute_scan env t with
      | (t1, Except.ok _) => execute_print env t1
      | (t1, Except.error e) => (t1, Except.error e))

/-- A route handler as invoked by the dispatcher: receives the address and the
decoded argument list. -/
def HandlerFn : Type :=
  String → List OscArg → ProcState → ProcState × Except PyExn Unit

/-- Modelled from the spec: the OSC library (`pythonosc`) invokes a mapped
callback as `callback(address, *args)`, passing each decoded argument
positionally.  A Python function declared with exactly two parameters such as
`echo_callback(_address, msg)` therefore raises `TypeError` before its body
runs unless the argument list has exactly one element. -/
def echoRoute : HandlerFn := fun addr args s =>
  match args with
  | [m] => echo_callback addr m s
  | _ => (s, Except.error PyExn.typeError)

/-- Dispatch-level wrapper of `scan_callback` with the positional-call arity
check (see `echoRoute`). -/
def scanRoute (env : DeviceEnv) : HandlerFn := fun addr args s =>
  match args with
  | [m] => scan_callback env addr m s
  | _ => (s, Except.error PyExn.typeError)

/-- Dispatch-level wrapper of `scan_and_print_callback` with the
positional-call arity check (see `echoRoute`). -/
def scanAndPrintRoute (env : DeviceEnv) : HandlerFn := fun addr args s =>
  match args with
  | [m] => scan_and_print_callback env addr m s
  | _ => (s, Except.error PyExn.typeError)

/-- Modelled from the spec: the Router contract of the OSC library
(`pythonosc.dispatcher.Dispatcher`, an external collaborator specified only by
its interface).  `dispatch` looks up the handlers registered for the exact
address and invokes them in registration order; an exception raised by a
handler aborts the dispatch of that message; if no handler is registered the
message is silently dropped. -/
def dispatchList : List (String × HandlerFn) → String → List OscArg → ProcState →
    ProcState × Except PyExn Unit
  | [], _, _, s => (s, Except.ok ())
  | (p, h) :: rest, addr, args, s =>
    if p = addr then
      match h addr args s with
      | (s1, Except.ok _) => dispatchList rest addr args s1
      | (s1, Except.error e) => (s1, Except.error e)
    else
      dispatchList rest addr args s

/-- The route table built by `start_handler` (larpa.py lines 110-113):
`/echo`, `/scan`, `/scan_and_print`. -/
def larpaRoutes (env : DeviceEnv) : List (String × HandlerFn) :=
  [("/echo", echoRoute), ("/scan", scanRoute env), ("/scan_and_print", scanAndPrintRoute env)]

/-- Dispatch of one decoded inbound message against the routes registered by
`start_handler`. -/
def dispatch (env : DeviceEnv) (addr : String) (args : List OscArg) (s : ProcState) :
    ProcState × Except PyExn Unit :=
  dispatchList (larpaRoutes env) addr args s

/-- `scan_handler(args)` (larpa.py lines 125-127): the one-shot CLI path; calls
`execute_scan()` directly, with no dispatcher and no `MUTEX` interaction. -/
def scan_handler (env : DeviceEnv) (s : ProcState) : ProcState × Except PyExn Unit :=
  execute_scan env s

/-- `scan_and_print_handler(args)` (larpa.py lines 129-133): the one-shot CLI
path; calls `execute_scan()` then `execute_print()` directly, with no
dispatcher and no `MUTEX` interaction. -/
def scan_and_print_handler (env : DeviceEnv) (s : ProcState) :
    ProcState × Except PyExn Unit :=
  match execute_scan env s with
  | (s1, Except.ok _) => execute_print env s1
  | (s1, Except.error e) => (s1, Except.error e)

/-- The process state at daemon startup: lock free, nothing printed or run. -/
def initState : ProcState :=
  { mutexLocked := false, console := [], ops := [], procs := [] }

/-!
Interleaving model of N concurrent `/scan` triggers.

`ThreadingOSCUDPServer` handles each inbound datagram on its own thread, so N
simultaneous `/scan` datagrams run N concurrent instances of `scan_callback`
against the one global `MUTEX`.  Per Python's `threading.Lock`, the
`MUTEX.locked()` read and the blocking `MUTEX.acquire()` at entry of
`with MUTEX:` are each individually atomic, but the pair is not: the callback
is a check-then-act built from two separate operations.  Each thread is
therefore a sequence of atomic phases:

* `start`: about to evaluate `MUTEX.locked()`;
* `waiting`: took the `else` branch, about to block in `MUTEX.acquire()`;
* `critical`: holds the lock and is running the device operation
  (`execute_scan`);
* `doneScanned`: released the lock after invoking the Executor;
* `doneIgnored`: printed the "Scan ignored" notice and returned without
  invoking the Executor.
-/

/-- Phase of one datagram-handling thread running `scan_callback`. -/
inductive TPhase
  | start
  | waiting
  | critical
  | doneScanned
  | doneIgnored
deriving DecidableEq, Repr

/-- Shared state of the racing threads: the global `MUTEX` and the phase of
each thread (thread i is entry i of the list). -/
structure CState where
  locked : Bool
  phases : List TPhase
deriving DecidableEq, Repr

/-- A scheduler choice: which thread takes its next atomic step. -/
inductive CLabel
  | check (i : Nat)
  | acquire (i : Nat)
  | finish (i : Nat)
deriving DecidableEq, Repr

/-- One atomic step of thread `i`.  `check` executes the `MUTEX.locked()`
test (branching to the ignored notice or towards acquisition); `acquire`
completes the blocking `MUTEX.acquire()` and is enabled only while the lock is
free; `finish` completes `execute_scan` and releases the lock on exit of the
`with` block.  Returns `none` when the chosen thread cannot take that step. -/
def cstep : CLabel → CState → Option CState
  | CLabel.check i, c =>
    match c.phases[i]? with
    | some TPhase.start =>
      if c.locked then
        some { c with phases := c.phases.set i TPhase.doneIgnored }
      else
        some { c with phases := c.phases.set i TPhase.waiting }
    | _ => none
  | CLabel.acquire i, c =>
    match c.phases[i]? with
    | some TPhase.waiting =>
      if c.locked then none
      else some { locked := true, phases := c.phases.set i TPhase.critical }
    | _ => none
  | CLabel.finish i, c =>
    match c.phases[i]? with
    | some TPhase.critical =>
      some { locked := false, phases := c.phases.set i TPhase.doneScanned }
    | _ => none

/-- Run a schedule (a list of scheduler choices) from a state; `none` when the
schedule picks a step that is not enabled. -/
def crun : List CLabel → CState → Option CState
  | [], c => some c
  | l :: ls, c =>
    match cstep l c with
    | some c2 => crun ls c2
    | none => none

/-- Initial state for N concurrent `/scan` triggers arriving simultaneously at
the running listener: lock free, every thread about to run `scan_callback`. -/
def cinit (n : Nat) : CState :=
  { locked := false, phases := List.replicate n TPhase.start }

/-- The predicate for a thread being inside the device operation. -/
def isCrit (p : TPhase) : Bool := decide (p = TPhase.critical)

/-- Number of threads currently executing the device operation. -/
def criticalCount (c : CState) : Nat :=
  c.phases.countP isCrit

/-- Number of threads that have invoked (or are invoking) the Executor. -/
def invokedCount (c : CState) : Nat :=
  c.phases.countP (fun p =>
    decide (p = TPhase.critical) || decide (p = TPhase.doneScanned))

/-- Number of threads that printed the "ignored" notice. -/
def ignoredCount (c : CState) : Nat :=
  c.phases.countP (fun p => decide (p = TPhase.doneIgnored))

/-- The lock invariant: when the lock is free no thread is in its critical
section, and the lock being held bounds the critical occupancy by one. -/
def CInv (c : CState) : Prop :=
  criticalCount c ≤ (if c.locked then 1 else 0)

/-- Environment in which both child processes exit 0 and spawn cleanly. -/
def envNominal : DeviceEnv :=
  { scanExit := 0, scanRaises := false, printExit := 0, printRaises := false }

/-- Environment in which the scan child exits 1 (scan step fails). -/
def envScanFails : DeviceEnv :=
  { scanExit := 1, scanRaises := false, printExit := 0, printRaises := false }

/-- Environment in which the print child exits 1 (print step fails). -/
def envPrintFails : DeviceEnv :=
  { scanExit := 0, scanRaises := false, printExit := 1, printRaises := false }

/-- Environment in which spawning the scan child raises an OS-level error. -/
def envScanRaises : DeviceEnv :=
  { scanExit := 0, scanRaises := true, printExit := 0, printRaises := false }

/-- A process state in which some other worker currently holds the `MUTEX`. -/
def heldState : ProcState :=
  { mutexLocked := true, console := [], ops := [], procs := [] }

/-- The schedule in which two simultaneous `/scan` threads both pass the
`MUTEX.locked()` check before either acquires the lock. -/
def racySchedule : List CLabel :=
  [CLabel.check 0, CLabel.check 1, CLabel.acquire 0, CLabel.finish 0,
    CLabel.acquire 1, CLabel.finish 1]

/-- The final state reached by `racySchedule` from two simultaneous triggers. -/
def racyFinal : CState :=
  { locked := false, phases := [TPhase.doneScanned, TPhase.doneScanned] }

/-- Updating one list entry shifts a `countP` by the predicate's value at the
old and new entries. -/
theorem countP_set_eq (p : TPhase → Bool) :
    ∀ (l : List TPhase) (i : Nat) (x y : TPhase), l[i]? = some y →
      (l.set i x).countP p + (if p y then 1 else 0) =
        l.countP p + (if p x then 1 else 0) := by
  intro l
  induction l with
  | nil => intro i x y h; simp at h
  | cons a t ih =>
    intro i x y h
    cases i with
    | zero =>
      rw [List.getElem?_cons_zero] at h
      cases h
      simp only [List.set, List.countP_cons]
      omega
    | succ j =>
      rw [List.getElem?_cons_succ] at h
      simp only [List.set, List.countP_cons]
      have := ih j x y h
      omega

/-- Every enabled step preserves the lock invariant. -/
theorem cstep_preserves_CInv (l : CLabel) (c c2 : CState)
    (hstep : cstep l c = some c2) (hinv : CInv c) : CInv c2 := by
  simp only [CInv, criticalCount] at hinv
  cases l with
  | check i =>
    simp only [cstep] at hstep
    cases hg : c.phases[i]? with
    | none => rw [hg] at hstep; exact Option.noConfusion hstep
    | some ph =>
      rw [hg] at hstep
      cases ph
      case waiting => exact Option.noConfusion hstep
      case critical => exact Option.noConfusion hstep
      case doneScanned => exact Option.noConfusion hstep
      case doneIgnored => exact Option.noConfusion hstep
      case start =>
        by_cases hl : c.locked = true
        · rw [if_pos hl] at hstep
          cases hstep
          have hcnt := countP_set_eq isCrit c.phases i TPhase.doneIgnored TPhase.start hg
          rw [if_neg (show ¬(isCrit TPhase.start = true) by decide),
            if_neg (show ¬(isCrit TPhase.doneIgnored = true) by decide)] at hcnt
          rw [if_pos hl] at hinv
          show List.countP isCrit (c.phases.set i TPhase.doneIgnored) ≤
            if c.locked = true then 1 else 0
          rw [if_pos hl]
          omega
        · rw [if_neg hl] at hstep
          cases hstep
          have hcnt := countP_set_eq isCrit c.phases i TPhase.waiting TPhase.start hg
          rw [if_neg (show ¬(isCrit TPhase.start = true) by decide),
            if_neg (show ¬(isCrit TPhase.waiting = true) by decide)] at hcnt
          rw [if_neg hl] at hinv
          show List.countP isCrit (c.phases.set i TPhase.waiting) ≤
            if c.locked = true then 1 else 0
          rw [if_neg hl]
          omega
  | acquire i =>
    simp only [cstep] at hstep
    cases hg : c.phases[i]? with
    | none => rw [hg] at hstep; exact Option.noConfusion hstep
    | some ph =>
      rw [hg] at hstep
      cases ph
      case start => exact Option.noConfusion hstep
      case critical => exact Option.noConfusion hstep
      case doneScanned => exact Option.noConfusion hstep
      case doneIgnored => exact Option.noConfusion hstep
      case waiting =>
        by_cases hl : c.locked = true
        · rw [if_pos hl] at hstep; exact Option.noConfusion hstep
        · rw [if_neg hl] at hstep
          cases hstep
          have hcnt := countP_set_eq isCrit c.phases i TPhase.critical TPhase.waiting hg
          rw [if_neg (show ¬(isCrit TPhase.waiting = true) by decide),
            if_pos (show isCrit TPhase.critical = true by decide)] at hcnt
          rw [if_neg hl] at hinv
          show List.countP isCrit (c.phases.set i TPhase.critical) ≤
            if (true = true) then 1 else 0
          rw [if_pos rfl]
          omega
  | finish i =>
    simp only [cstep] at hstep
    cases hg : c.phases[i]? with
    | none => rw [hg] at hstep; exact Option.noConfusion hstep
    | some ph =>
      rw [hg] at hstep
      cases ph
      case start => exact Option.noConfusion hstep
      case waiting => exact Option.noConfusion hstep
      case doneScanned => exact Option.noConfusion hstep
      case doneIgnored => exact Option.noConfusion hstep
      case critical =>
        cases hstep
        have hcnt := countP_set_eq isCrit c.phases i TPhase.doneScanned TPhase.critical hg
        rw [if_pos (show isCrit TPhase.critical = true by decide),
          if_neg (show ¬(isCrit TPhase.doneScanned = true) by decide)] at hcnt
        show List.countP isCrit (c.phases.set i TPhase.doneScanned) ≤
          if (false = true) then 1 else 0
        rw [if_neg (show ¬(false = true) by decide)]
        by_cases hlk : c.locked = true
        · rw [if_pos hlk] at hinv
          omega
        · rw [if_neg hlk] at hinv
          omega

/-- Running any schedule preserves the lock invariant. -/
theorem crun_preserves_CInv :
    ∀ (ls : List CLabel) (c c2 : CState), crun ls c = some c2 → CInv c → CInv c2 := by
  intro ls
  induction ls with
  | nil => intro c c2 h hinv; cases h; exact hinv
  | cons l rest ih =>
    intro c c2 h hinv
    simp only [crun] at h
    cases hs : cstep l c with
    | none => rw [hs] at h; cases h
    | some cmid =>
      rw [hs] at h
      exact ih cmid c2 h (cstep_preserves_CInv l c cmid hs hinv)

/-- The initial state of N simultaneous triggers satisfies the invariant. -/
theorem cinit_CInv (n : Nat) : CInv (cinit n) := by
  simp only [CInv, cinit, criticalCount]
  have h0 : (List.replicate n TPhase.start).countP isCrit = 0 := by
    induction n with
    | zero => rfl
    | succ m ih => simp [List.replicate, List.countP_cons, isCrit, ih]
  simp [h0]



/-- Explicit form of `scan_callback` when the gate is observed free. -/
theorem scan_callback_free_eq (env : DeviceEnv) (a : String) (m : OscArg)
    (s : ProcState) (hfree : s.mutexLocked = false) :
    scan_callback env a m s =
      if env.scanRaises then
        ({ mutexLocked := false, console := s.console ++ ["> Scanning..."],
           ops := s.ops ++ [DevOp.scan], procs := s.procs },
          Except.error PyExn.osError)
      else
        ({ mutexLocked := false, console := s.console ++ ["> Scanning..."],
           ops := s.ops ++ [DevOp.scan],
           procs := s.procs ++ [(scanCommand, env.scanExit)] },
          Except.ok ()) := by
  cases hr : env.scanRaises <;>
    simp [scan_callback, hfree, withMutex, execute_scan, hr,
      ProcState.printLine, ProcState.beginOp, ProcState.ranProc]

/-- In `scan_and_print_callback`, the gate is cleared on exit of the `with`
block no matter how the body ends. -/
theorem scan_and_print_callback_mutex_free (env : DeviceEnv) (a : String)
    (m : OscArg) (s : ProcState) (hfree : s.mutexLocked = false) :
    (scan_and_print_callback env a m s).1.mutexLocked = false := by
  simp only [scan_and_print_callback, hfree, if_neg Bool.false_ne_true, withMutex]

/-- Observable effect of `scan_and_print_callback` from a free gate when the
scan subprocess spawns (whatever its exit status, and whether or not the print
subprocess spawns): both executor steps run and the gate ends free. -/
theorem scan_and_print_callback_free_ops (env : DeviceEnv) (a : String)
    (m : OscArg) (s : ProcState) (hfree : s.mutexLocked = false)
    (hnr : env.scanRaises = false) :
    (scan_and_print_callback env a m s).1.ops = s.ops ++ [DevOp.scan, DevOp.print] ∧
    (scan_and_print_callback env a m s).1.mutexLocked = false := by
  refine ⟨?_, scan_and_print_callback_mutex_free env a m s hfree⟩
  cases hpr : env.printRaises <;>
    simp [scan_and_print_callback, hfree, hnr, hpr, withMutex, execute_scan,
      execute_print, ProcState.printLine, ProcState.beginOp, ProcState.ranProc]

/-- C1 counterexample: two `/scan` triggers arriving simultaneously at the
running listener can BOTH invoke the scan Executor.  In the schedule where
both threads evaluate `MUTEX.locked()` (both seeing the lock free) before
either acquires it, both reach the device operation and neither prints the
"ignored" notice — refuting "exactly one of them leads to an invocation of
the scan Executor, and each of the other N-1 produces an ignored notice". -/
theorem two_racing_scans_both_invoke_executor :
    crun racySchedule (cinit 2) = some racyFinal ∧
    invokedCount racyFinal = 2 ∧
    ignoredCount racyFinal = 0 :=
  ⟨rfl, rfl, rfl⟩

/-- C1 (amended): given N concurrent `/scan` triggers, at most one device
operation step sequence is executing at any instant, process-wide (the
`with MUTEX:` block does guarantee mutual exclusion); but it is not guaranteed
that exactly one trigger invokes the Executor — several triggers that all
observe the lock free before any of them acquires it each invoke the Executor
in turn, so the other N-1 triggers do not all produce an "ignored" notice.
The theorem: in every state reachable from N simultaneous triggers under any
interleaving, at most one thread is inside the device operation. -/
theorem racing_scans_mutual_exclusion (n : Nat) (ls : List CLabel) (c2 : CState)
    (h : crun ls (cinit n) = some c2) : criticalCount c2 ≤ 1 := by
  have hinv := crun_preserves_CInv ls (cinit n) c2 h (cinit_CInv n)
  simp only [CInv] at hinv
  by_cases hl : c2.locked = true
  · rw [if_pos hl] at hinv; exact hinv
  · rw [if_neg hl] at hinv; omega

/-- C1 witness: the mutual-exclusion bound instantiated on the concrete racy
schedule of two simultaneous triggers. -/
theorem racing_scans_mutual_exclusion_witness : criticalCount racyFinal ≤ 1 :=
  racing_scans_mutual_exclusion 2 racySchedule racyFinal rfl

/-- C2 counterexample: with the gate free and the scan child exiting 1 (a
failed scan), `scan_and_print_callback` still invokes the print step: the
executor trace is scan followed by print, and the completed-process trace
records the scan exiting 1 before `lp` runs — refuting "if the scan step
fails, the print step is not invoked". -/
theorem scan_failure_print_still_invoked :
    (scan_and_print_callback envScanFails "/scan_and_print" (OscArg.num 1)
      initState).1.ops = [DevOp.scan, DevOp.print] ∧
    (scan_and_print_callback envScanFails "/scan_and_print" (OscArg.num 1)
      initState).1.procs = [(scanCommand, 1), (printCommand, 0)] :=
  ⟨rfl, rfl⟩

/-- C2 (amended): in every execution of `scan_and_print` in which the scan
subprocess spawns, the print step is invoked unconditionally — in particular
also when the scan step fails (scan child exits non-zero) — and the Gate is
still released afterwards. -/
theorem scan_and_print_unconditional_print_gate_released (env : DeviceEnv)
    (a : String) (m : OscArg) (s : ProcState) (hfree : s.mutexLocked = false)
    (hnr : env.scanRaises = false) :
    (scan_and_print_callback env a m s).1.ops = s.ops ++ [DevOp.scan, DevOp.print] ∧
    (scan_and_print_callback env a m s).1.mutexLocked = false :=
  scan_and_print_callback_free_ops env a m s hfree hnr

/-- C2 witness: the amended claim instantiated on a failing scan (exit 1)
from the initial state. -/
theorem scan_and_print_unconditional_print_gate_released_witness :
    (scan_and_print_callback envScanFails "/scan_and_print" (OscArg.num 1)
      initState).1.ops = [DevOp.scan, DevOp.print] ∧
    (scan_and_print_callback envScanFails "/scan_and_print" (OscArg.num 1)
      initState).1.mutexLocked = false :=
  scan_and_print_unconditional_print_gate_released envScanFails
    "/scan_and_print" (OscArg.num 1) initState rfl rfl

/-- C3 counterexample: the scan child exits 1 yet `execute_scan` returns
normally with no error signalled to the caller, and likewise for
`execute_print` with the print child exiting 1 — refuting "the result
indicates failure iff the child process exit status is non-zero" (the code
calls `subprocess.run` without `check=True` and discards its return value, so
a non-zero exit status is never surfaced). -/
theorem device_failure_not_signaled :
    (execute_scan envScanFails initState).1.procs = [(scanCommand, 1)] ∧
    (execute_scan envScanFails initState).2 = Except.ok () ∧
    (execute_print envPrintFails initState).1.procs = [(printCommand, 1)] ∧
    (execute_print envPrintFails initState).2 = Except.ok () :=
  ⟨rfl, rfl, rfl, rfl⟩

/-- C3 (amended): `execute_scan` and `execute_print` never signal a device
error to their caller: whenever the child process spawns, the call returns
success regardless of the child's exit status (the exit status is silently
discarded). -/
theorem executor_never_signals_failure (env : DeviceEnv) (s : ProcState) :
    (env.scanRaises = false → (execute_scan env s).2 = Except.ok ()) ∧
    (env.printRaises = false → (execute_print env s).2 = Except.ok ()) := by
  constructor
  · intro h; simp [execute_scan, h]
  · intro h; simp [execute_print, h]

/-- C3 witness: the amended claim instantiated on failing exit statuses. -/
theorem executor_never_signals_failure_witness :
    (execute_scan envScanFails initState).2 = Except.ok () ∧
    (execute_print envPrintFails initState).2 = Except.ok () :=
  ⟨(executor_never_signals_failure envScanFails initState).1 rfl,
    (executor_never_signals_failure envPrintFails initState).2 rfl⟩

/-- C4: for every execution of a gate-guarded handler (`/scan` or
`/scan_and_print`) that acquires the Gate (i.e. observes it free and enters
the `with MUTEX:` block), the Gate is released on every exit path — normal
return, device-command failure (non-zero exit status) and raised exception
alike: the final lock state is free for every device environment. -/
theorem gate_released_on_every_exit_path (env : DeviceEnv) (a : String)
    (m : OscArg) (s : ProcState) (hfree : s.mutexLocked = false) :
    (scan_callback env a m s).1.mutexLocked = false ∧
    (scan_and_print_callback env a m s).1.mutexLocked = false := by
  refine ⟨?_, scan_and_print_callback_mutex_free env a m s hfree⟩
  simp only [scan_callback, hfree, if_neg Bool.false_ne_true, withMutex]

/-- C4 witness: the release guarantee instantiated on the exception path
(spawning the scan child raises an OS-level error). -/
theorem gate_released_on_every_exit_path_witness :
    (scan_callback envScanRaises "/scan" (OscArg.num 1) initState).1.mutexLocked = false ∧
    (scan_and_print_callback envScanRaises "/scan" (OscArg.num 1)
      initState).1.mutexLocked = false :=
  gate_released_on_every_exit_path envScanRaises "/scan" (OscArg.num 1) initState rfl

/-- In `scan_callback`, the gate is cleared on exit of the `with` block no
matter how the body ends. -/
theorem scan_callback_mutex_free (env : DeviceEnv) (a : String) (m : OscArg)
    (s : ProcState) (hfree : s.mutexLocked = false) :
    (scan_callback env a m s).1.mutexLocked = false := by
  simp only [scan_callback, hfree, if_neg Bool.false_ne_true, withMutex]

/-- C5: on a `/scan` dispatch, if the Gate is held at entry the handler prints
the "ignored" notice and returns without invoking the Executor and without
changing the Gate state; if the Gate is free at entry the handler acquires it
and invokes `execute_scan` exactly once (exactly one scan step and its banner
are appended). -/
theorem scan_gate_discipline (env : DeviceEnv) (a : String) (m : OscArg)
    (s : ProcState) :
    (s.mutexLocked = true →
      (scan_callback env a m s).1.console =
        s.console ++ ["> Scan ignored, a process lock has already been acquired..."] ∧
      (scan_callback env a m s).1.ops = s.ops ∧
      (scan_callback env a m s).1.mutexLocked = s.mutexLocked ∧
      (scan_callback env a m s).2 = Except.ok ()) ∧
    (s.mutexLocked = false →
      (scan_callback env a m s).1.ops = s.ops ++ [DevOp.scan] ∧
      (scan_callback env a m s).1.console = s.console ++ ["> Scanning..."]) := by
  constructor
  · intro h
    simp [scan_callback, h, ProcState.printLine]
  · intro h
    rw [scan_callback_free_eq env a m s h]
    cases hr : env.scanRaises <;> simp

/-- C5 witness: the held branch (trigger dropped, no executor step) and the
free branch (exactly one executor step) at concrete states. -/
theorem scan_gate_discipline_witness :
    (scan_callback envNominal "/scan" (OscArg.num 1) heldState).1.ops = heldState.ops ∧
    (scan_callback envNominal "/scan" (OscArg.num 1) initState).1.ops =
      initState.ops ++ [DevOp.scan] :=
  ⟨((scan_gate_discipline envNominal "/scan" (OscArg.num 1) heldState).1 rfl).2.1,
    ((scan_gate_discipline envNominal "/scan" (OscArg.num 1) initState).2 rfl).1⟩

/-- C6: after a successful `execute_scan` performed under the Gate (scan child
spawns and exits 0), the Gate is back in the free state, and the next `/scan`
trigger passes the gate check and invokes the Executor again. -/
theorem gate_free_after_successful_scan (env env2 : DeviceEnv) (a a2 : String)
    (m m2 : OscArg) (s : ProcState) (hfree : s.mutexLocked = false)
    (hspawn : env.scanRaises = false) (hexit : env.scanExit = 0) :
    (scan_callback env a m s).1.mutexLocked = false ∧
    (scan_callback env2 a2 m2 (scan_callback env a m s).1).1.ops =
      (scan_callback env a m s).1.ops ++ [DevOp.scan] := by
  have h1 : (scan_callback env a m s).1.mutexLocked = false :=
    scan_callback_mutex_free env a m s hfree
  refine ⟨h1, ?_⟩
  rw [scan_callback_free_eq env2 a2 m2 _ h1]
  cases hr : env2.scanRaises <;> simp

/-- C6 witness: a nominal scan from the initial state leaves the gate free
and a second trigger invokes the Executor again. -/
theorem gate_free_after_successful_scan_witness :
    (scan_callback envNominal "/scan" (OscArg.num 1) initState).1.mutexLocked = false ∧
    (scan_callback envNominal "/scan" (OscArg.num 2)
        (scan_callback envNominal "/scan" (OscArg.num 1) initState).1).1.ops =
      (scan_callback envNominal "/scan" (OscArg.num 1) initState).1.ops ++ [DevOp.scan] :=
  gate_free_after_successful_scan envNominal envNominal "/scan" "/scan"
    (OscArg.num 1) (OscArg.num 2) initState rfl rfl rfl

/-- C7: dispatching an inbound message whose address is none of the registered
patterns (`/echo`, `/scan`, `/scan_and_print`) is a no-op: the state is
unchanged (no handler invoked) and no error is raised. -/
theorem unregistered_address_noop (env : DeviceEnv) (addr : String)
    (args : List OscArg) (s : ProcState) (h1 : addr ≠ "/echo")
    (h2 : addr ≠ "/scan") (h3 : addr ≠ "/scan_and_print") :
    dispatch env addr args s = (s, Except.ok ()) := by
  simp [dispatch, larpaRoutes, dispatchList, Ne.symm h1, Ne.symm h2, Ne.symm h3]

/-- C7 witness: dispatch of an unregistered address at a concrete input. -/
theorem unregistered_address_noop_witness :
    dispatch envNominal "/bogus" [] initState = (initState, Except.ok ()) :=
  unregistered_address_noop envNominal "/bogus" [] initState
    (by decide) (by decide) (by decide)

/-- C8: dispatching `/echo` with one string argument `msg` prints a console
line containing exactly `msg` (the line `"> " ++ msg`), never touches the
Gate or the Executor, and always succeeds. -/
theorem echo_prints_exact_message (env : DeviceEnv) (s : ProcState) (msg : String) :
    (dispatch env "/echo" [OscArg.str msg] s).1.console = s.console ++ ["> " ++ msg] ∧
    (dispatch env "/echo" [OscArg.str msg] s).1.mutexLocked = s.mutexLocked ∧
    (dispatch env "/echo" [OscArg.str msg] s).1.ops = s.ops ∧
    (dispatch env "/echo" [OscArg.str msg] s).2 = Except.ok () := by
  simp [dispatch, larpaRoutes, dispatchList, echoRoute, echo_callback,
    OscArg.format, ProcState.printLine]

/-- C9: the one-shot CLI subcommands call the Executor directly: `scan_handler`
is exactly `execute_scan`, and both CLI handlers leave the Gate untouched and
run their step sequence even when the Gate happens to be held (no gate check,
no acquisition). -/
theorem cli_handlers_bypass_gate (env : DeviceEnv) (s : ProcState) :
    scan_handler env s = execute_scan env s ∧
    (scan_handler env s).1.mutexLocked = s.mutexLocked ∧
    (scan_handler env s).1.ops = s.ops ++ [DevOp.scan] ∧
    (scan_and_print_handler env s).1.mutexLocked = s.mutexLocked ∧
    (env.scanRaises = false →
      (scan_and_print_handler env s).1.ops = s.ops ++ [DevOp.scan, DevOp.print]) := by
  refine ⟨rfl, ?_, ?_, ?_, ?_⟩
  · cases hr : env.scanRaises <;>
      simp [scan_handler, execute_scan, hr, ProcState.printLine,
        ProcState.beginOp, ProcState.ranProc]
  · cases hr : env.scanRaises <;>
      simp [scan_handler, execute_scan, hr, ProcState.printLine,
        ProcState.beginOp, ProcState.ranProc]
  · cases hr : env.scanRaises
    · cases hpr : env.printRaises <;>
        simp [scan_and_print_handler, execute_scan, execute_print, hr, hpr,
          ProcState.printLine, ProcState.beginOp, ProcState.ranProc]
    · simp [scan_and_print_handler, execute_scan, hr, ProcState.printLine,
        ProcState.beginOp, ProcState.ranProc]
  · intro hnr
    cases hpr : env.printRaises <;>
      simp [scan_and_print_handler, execute_scan, execute_print, hnr, hpr,
        ProcState.printLine, ProcState.beginOp, ProcState.ranProc]

/-- C9 witness: the CLI scan-and-print path runs both steps even from a state
in which the Gate is held, confirming it performs no gate check. -/
theorem cli_handlers_bypass_gate_witness :
    (scan_and_print_handler envNominal heldState).1.ops =
      heldState.ops ++ [DevOp.scan, DevOp.print] :=
  (cli_handlers_bypass_gate envNominal heldState).2.2.2.2 rfl

/-- C10: the echo route requires exactly one message argument: dispatching
`/echo` with zero or with two or more decoded arguments makes the positional
call of `echo_callback` fail with a `TypeError` (arity error) and nothing is
printed (the state is unchanged). -/
theorem echo_arity_error (env : DeviceEnv) (args : List OscArg) (s : ProcState)
    (h : args.length ≠ 1) :
    dispatch env "/echo" args s = (s, Except.error PyExn.typeError) := by
  cases args with
  | nil => simp [dispatch, larpaRoutes, dispatchList, echoRoute]
  | cons a t =>
    cases t with
    | nil => simp at h
    | cons b t2 => simp [dispatch, larpaRoutes, dispatchList, echoRoute]

/-- C10 witness: a zero-argument `/echo` datagram yields the arity error. -/
theorem echo_arity_error_witness :
    dispatch envNominal "/echo" [] initState = (initState, Except.error PyExn.typeError) :=
  echo_arity_error envNominal [] initState (by decide)

end Larpa
